import Mathlib

/-!
Verification development for the PaneldeControlOpenClaw API gateway
(`src/paneldecontrolopenclaw/backend/`): a shallow embedding in Lean 4 of the
proxy request handler (`proxy.py`), the transcript store (`log_manager.py`),
and the live event bus (`event_bus.py`), together with theorems about the
embedded code.

Modelling conventions:
  * Python floats used as wall-clock timestamps are modelled as rationals.
  * External library behaviour the code calls into (json.loads, json.dumps,
    base64 decoding, time.time) is passed in as explicit function parameters
    bundled in an `Oracle`, so every theorem quantifies over the environment.
  * A call that blocks forever on a lock is modelled explicitly: by an
    `Option` result (`none` = the calling thread never proceeds) in the
    store, and by the `completes` flag of the handler result in the gateway,
    whose trace lists the externally visible actions performed before the
    blocking call.
-/

namespace PaneldeControl

/-! ### Transcript Store — `log_manager.py` (`LogManager`)

A blob is a file in the log directory, described by its name, last-modified
time and size.  `_prune_if_needed` (lines 70-90) recomputes the total size,
returns if it is within the cap, otherwise sorts the files by
`(st_mtime, path)` ascending (Python tuple order; `list.sort` is stable) and
deletes them in that order, subtracting each deleted size from the running
total and stopping as soon as the total is within the cap; a stat/unlink
failure on a candidate is skipped (`except Exception: continue`).  The
possibility that stat or unlink fails is modelled by the predicate
`canDelete`. -/

/-- Python `str.startswith` over code points (Lean's own String.startsWith is not
kernel-reducible; prefix testing over the character list is equivalent). -/
def strStartsWith (s p : String) : Bool := p.data.isPrefixOf s.data

/-- Python `str.endswith` over code points. -/
def strEndsWith (s p : String) : Bool := p.data.isSuffixOf s.data

structure LogFile where
  name : String
  mtime : ℚ
  size : Nat
deriving DecidableEq

def totalSize (fs : List LogFile) : Int :=
  (fs.map (fun f => (f.size : Int))).sum

/-- Python sort key for `_prune_if_needed`: the tuple `(st_mtime, path)`
compared lexicographically. -/
def fileOrder (f g : LogFile) : Prop :=
  f.mtime < g.mtime ∨ (f.mtime = g.mtime ∧ f.name ≤ g.name)

instance : DecidableRel fileOrder := fun f g => by
  unfold fileOrder
  infer_instance

/-- The call `files.sort()` — a stable sort by `fileOrder`; any two stable sorts agree,
so insertion sort models Python list.sort faithfully. -/
def sortFiles (fs : List LogFile) : List LogFile :=
  List.insertionSort fileOrder fs

/-- The deletion loop of `_prune_if_needed` (lines 81-90), already given the
sorted file list and the precomputed running total. -/
def pruneLoop (maxB : Int) (canDelete : LogFile → Bool) : Int → List LogFile → List LogFile
  | _, [] => []
  | total, f :: rest =>
    if canDelete f then
      if total - (f.size : Int) ≤ maxB then rest
      else pruneLoop maxB canDelete (total - (f.size : Int)) rest
    else f :: pruneLoop maxB canDelete total rest

/-- Method `_prune_if_needed` (lines 70-90): the surviving files after one pass. -/
def prune_if_needed (maxB : Int) (canDelete : LogFile → Bool) (fs : List LogFile) : List LogFile :=
  if totalSize fs ≤ maxB then fs
  else pruneLoop maxB canDelete (totalSize fs) (sortFiles fs)

/-- Total size of the deletable files among the first `j` files of `l`. -/
def delSum (canDelete : LogFile → Bool) (l : List LogFile) (j : Nat) : Int :=
  totalSize ((l.take j).filter canDelete)

theorem totalSize_cons (f : LogFile) (l : List LogFile) :
    totalSize (f :: l) = (f.size : Int) + totalSize l := by
  simp [totalSize]

theorem totalSize_append (l r : List LogFile) :
    totalSize (l ++ r) = totalSize l + totalSize r := by
  simp [totalSize]

theorem delSum_zero (canDelete : LogFile → Bool) (l : List LogFile) :
    delSum canDelete l 0 = 0 := by
  simp [delSum, totalSize]

theorem delSum_cons_succ_del (canDelete : LogFile → Bool) (f : LogFile) (rest : List LogFile)
    (j : Nat) (hf : canDelete f = true) :
    delSum canDelete (f :: rest) (j + 1) = (f.size : Int) + delSum canDelete rest j := by
  simp [delSum, List.take_succ_cons, List.filter_cons, hf, totalSize_cons]

theorem delSum_cons_succ_keep (canDelete : LogFile → Bool) (f : LogFile) (rest : List LogFile)
    (j : Nat) (hf : canDelete f = false) :
    delSum canDelete (f :: rest) (j + 1) = delSum canDelete rest j := by
  simp [delSum, List.take_succ_cons, List.filter_cons, hf]

/-- Behaviour of the deletion loop: it examines some prefix of the sorted
list (`k` files), deletes exactly the deletable files of that prefix and
keeps everything else; it stops at the first point where the running total
is within the cap, or after exhausting the list. -/
theorem pruneLoop_spec (maxB : Int) (canDelete : LogFile → Bool) :
    ∀ (l : List LogFile) (total : Int), maxB < total →
      ∃ k, k ≤ l.length ∧
        pruneLoop maxB canDelete total l =
          (l.take k).filter (fun f => !canDelete f) ++ l.drop k ∧
        (∀ j < k, maxB < total - delSum canDelete l j) ∧
        (total - delSum canDelete l k ≤ maxB ∨ k = l.length) := by
  intro l
  induction l with
  | nil =>
    intro total _
    exact ⟨0, by simp [pruneLoop, delSum, totalSize]⟩
  | cons f rest ih =>
    intro total htot
    by_cases hd : canDelete f = true
    · by_cases hbr : total - (f.size : Int) ≤ maxB
      · refine ⟨1, by simp, ?_, ?_, ?_⟩
        · simp [pruneLoop, hd, hbr, List.filter_cons]
        · intro j hj
          interval_cases j
          simpa [delSum_zero] using htot
        · left
          rw [show (1 : Nat) = 0 + 1 by rfl, delSum_cons_succ_del canDelete f rest 0 hd,
            delSum_zero]
          omega
      · have htot' : maxB < total - (f.size : Int) := by omega
        obtain ⟨k', hk'le, heq, hmin, hlast⟩ := ih (total - (f.size : Int)) htot'
        refine ⟨k' + 1, by simpa using Nat.succ_le_succ hk'le, ?_, ?_, ?_⟩
        · simp [pruneLoop, hd, hbr, heq, List.take_succ_cons, List.filter_cons]
        · intro j hj
          cases j with
          | zero => simpa [delSum_zero] using htot
          | succ i =>
            rw [delSum_cons_succ_del canDelete f rest i hd]
            have := hmin i (Nat.lt_of_succ_lt_succ hj)
            omega
        · rw [delSum_cons_succ_del canDelete f rest k' hd]
          rcases hlast with h | h
          · left; omega
          · right; simp [h]
    · have hd' : canDelete f = false := by revert hd; cases canDelete f <;> simp
      obtain ⟨k', hk'le, heq, hmin, hlast⟩ := ih total htot
      refine ⟨k' + 1, by simpa using Nat.succ_le_succ hk'le, ?_, ?_, ?_⟩
      · simp [pruneLoop, hd', heq, List.take_succ_cons, List.filter_cons]
      · intro j hj
        cases j with
        | zero => simpa [delSum_zero] using htot
        | succ i =>
          rw [delSum_cons_succ_keep canDelete f rest i hd']
          exact hmin i (Nat.lt_of_succ_lt_succ hj)
      · rw [delSum_cons_succ_keep canDelete f rest k' hd']
        rcases hlast with h | h
        · left; exact h
        · right; simp [h]

theorem totalSize_perm (l r : List LogFile) (h : l.Perm r) : totalSize l = totalSize r :=
  List.Perm.sum_eq (h.map (fun f => (f.size : Int)))

theorem totalSize_take_drop (l : List LogFile) (k : Nat) :
    totalSize (l.take k) + totalSize (l.drop k) = totalSize l := by
  rw [← totalSize_append, List.take_append_drop]

theorem sortFiles_perm (fs : List LogFile) : (sortFiles fs).Perm fs :=
  List.perm_insertionSort fileOrder fs

theorem totalSize_sortFiles (fs : List LogFile) : totalSize (sortFiles fs) = totalSize fs :=
  totalSize_perm _ _ (sortFiles_perm fs)

instance : IsTotal LogFile fileOrder := by
  constructor
  intro a b
  unfold fileOrder
  rcases lt_trichotomy a.mtime b.mtime with h | h | h
  · exact Or.inl (Or.inl h)
  · rcases le_total a.name b.name with hn | hn
    · exact Or.inl (Or.inr ⟨h, hn⟩)
    · exact Or.inr (Or.inr ⟨h.symm, hn⟩)
  · exact Or.inr (Or.inl h)

instance : IsTrans LogFile fileOrder := by
  constructor
  intro a b c hab hbc
  unfold fileOrder at *
  rcases hab with h1 | ⟨h1, h1n⟩
  · rcases hbc with h2 | ⟨h2, -⟩
    · exact Or.inl (h1.trans h2)
    · exact Or.inl (h2 ▸ h1)
  · rcases hbc with h2 | ⟨h2, h2n⟩
    · exact Or.inl (h1 ▸ h2)
    · exact Or.inr ⟨h1.trans h2, h1n.trans h2n⟩

theorem sortFiles_sorted (fs : List LogFile) : List.Sorted fileOrder (sortFiles fs) :=
  List.sorted_insertionSort fileOrder fs

/-! ### `LogManager._compress_old_logs` (lines 118-155) and `write_log` (92-116)

`write_log` appends to (or creates) `<run_id>.log`, then runs the compression
pass and the pruning pass, all inside `with self.lock`.  `self.lock` is a
`threading.Lock`, which is NOT reentrant: `_prune_if_needed` opens its own
`with self.lock` block (line 73) while `write_log` (line 108) is still holding
the lock, so that inner acquire blocks the calling thread forever.  Blocking
forever is modelled as the result `none`; a call that returns normally is
`some`. -/

/-- Appending `len` bytes to the blob named `name` at time `now` (creating it
if absent), as the open/write in `write_log` lines 109-111 does. -/
def touchFile (fs : List LogFile) (name : String) (len : Nat) (now : ℚ) : List LogFile :=
  if fs.any (fun f => f.name == name) then
    fs.map (fun f => if f.name == name then { f with size := f.size + len, mtime := now } else f)
  else
    fs ++ [{ name := name, mtime := now, size := len }]

/-- Method `_compress_old_logs`: no-op when `compress_days` is falsy (None or 0);
otherwise every `.log` file (not already `.gz`) whose mtime is at or below
`now - days*86400` is replaced by a `.gz` artifact of the same mtime, unless
compression of that file fails (`canCompress` false), in which case the
original is left in place.  `gzSize` supplies the compressed size. -/
def compress_old_logs (now : ℚ) (compressDays : Option Nat) (gzSize : LogFile → Nat)
    (canCompress : LogFile → Bool) (fs : List LogFile) : List LogFile :=
  match compressDays with
  | none => fs
  | some d =>
    if d = 0 then fs
    else
      fs.map (fun f =>
        if strEndsWith f.name ".gz" then f
        else if !(strEndsWith f.name ".log") then f
        else if now - ((d : ℚ) * 86400) < f.mtime then f
        else if canCompress f then
          { name := f.name ++ ".gz", mtime := f.mtime, size := gzSize f }
        else f)

/-- Acquiring the non-reentrant store lock: blocks forever (`none`) if the
calling thread already holds it. -/
def acquireLock (held : Bool) : Option Unit :=
  if held then none else some ()

/-- Method `_prune_if_needed` as actually executed: it opens `with self.lock`
(line 73) before doing any work. -/
def prune_if_needed_locked (maxB : Int) (canDelete : LogFile → Bool) (lockHeld : Bool)
    (fs : List LogFile) : Option (List LogFile) :=
  match acquireLock lockHeld with
  | none => none
  | some _ => some (prune_if_needed maxB canDelete fs)

/-- Method `write_log(run_id, data)` (lines 92-116), starting from a store whose lock
is held or free as given by `lockHeld`: acquire `self.lock`, append to the
blob, run the compression pass, then call `_prune_if_needed` — which tries to
acquire `self.lock` again while this thread still holds it.  Returns the log
path and the resulting directory contents if the call ever returns. -/
def write_log (maxB : Int) (compressDays : Option Nat) (gzSize : LogFile → Nat)
    (canCompress canDelete : LogFile → Bool) (now : ℚ) (lockHeld : Bool)
    (fs : List LogFile) (runId data : String) : Option (String × List LogFile) :=
  match acquireLock lockHeld with
  | none => none
  | some _ =>
    let fs1 := touchFile fs (runId ++ ".log") data.length now
    let fs2 := compress_old_logs now compressDays gzSize canCompress fs1
    match prune_if_needed_locked maxB canDelete true fs2 with
    | none => none
    | some fs3 => some (runId ++ ".log", fs3)

/-! ### Live Event Sink — `event_bus.py`

The module holds ONE global `queue.Queue`, created at import time
(line 29).  `publish_event` appends a dictionary to that queue (lines 32-55);
`subscribe` simply returns the global queue itself (lines 58-66).  A FIFO
queue is modelled as a list: `put` appends at the back, consumers take from
the front. -/

structure BusEvent where
  run_id : String
  event : String
  details : Option String
  timestamp : Option ℚ
deriving DecidableEq

/-- The global `_event_queue` at module load: empty. -/
def initQueue : List BusEvent := []

/-- Function `publish_event(run_id, event_type, details, timestamp)`. -/
def publish_event (q : List BusEvent) (run_id event_type : String)
    (details : Option String) (timestamp : Option ℚ) : List BusEvent :=
  q ++ [{ run_id := run_id, event := event_type, details := details, timestamp := timestamp }]

/-- Function `subscribe()` returns the global queue itself — the handle a subscriber
drains is exactly the one queue, with everything already in it. -/
def subscribe (q : List BusEvent) : List BusEvent := q

/-! ### Gateway — `proxy.py` (`ProxyServer.run.Handler`)

The request handler `do_POST` (lines 82-414) and `do_GET` (lines 74-80),
embedded as they actually execute rather than as their text intends.  Two
source-level defects dominate the execution:

  * `proxy.py` is not well-formed Python: line 168 (and its copy at
    line 366) — the third entry of the pattern list of the local `_redact` —
    is not a string literal, so compiling the module raises `SyntaxError`
    and it cannot be imported at all; as written the server never starts.
    The per-pattern `try/except` around `re.sub` is a run-time construct
    and cannot skip a compile-time syntax error.  The embedding below reads
    the handler under the minimal quoting repair of that one line and keeps
    `_redact` abstract (the `redact` field of the `Oracle`); no theorem
    depends on its behaviour.  The parse failure itself is recorded against
    claim C8.
  * Every request that passes the breaker check and the body parse reaches
    `log_manager.write_log(run_id, initial_log)` at line 178.  `write_log`
    appends the text to the run's blob (log_manager.py lines 109-111) and
    then blocks forever re-acquiring the non-reentrant store lock (see
    `write_log` above and claim C2), so control never returns to the
    handler: `db.add_run` (line 179), every event, the upstream call, the
    reply to the caller, the response transcript, the terminal run update
    and the breaker-counter update (lines 179-414) are all unreachable.
    A handler call is therefore a `PostResult` whose `completes` flag
    records whether the handler ever returns to the server loop.

(The unreachable recording code from line 184 on also references a name
`event_bus` the module never imports or defines.)  The handler is embedded
as a pure function of the inbound request, the configuration snapshot, the
breaker state and an `Oracle` describing the environment. -/

/-- The slice of a parsed JSON request body that the handler reads: the
`model` field (overridden before the blocking call) and the truthiness of
the `stream` field. -/
structure Payload where
  model : Option String
  stream : Bool
deriving DecidableEq

/-- Provider configuration dictionary `providers.<name>` — absent keys are
`none`; a provider missing from the config behaves as the empty dictionary,
i.e. all fields `none`. -/
structure ProviderCfg where
  base_url : Option String
  api_key : Option String
  api_key_header : Option String
  api_key_pref : Option String
deriving DecidableEq

def emptyProviderCfg : ProviderCfg :=
  { base_url := none, api_key := none, api_key_header := none, api_key_pref := none }

/-- The configuration snapshot `get_config()` as read by the handler
(lines 98-106): provider name, model override, provider dictionaries. -/
structure Config where
  provider : Option String
  model : Option String
  providers : List (String × ProviderCfg)

/-- The inbound POST request: path, decoded body text (empty string models an
empty `body_bytes`), and the `Authorization` header if present. -/
structure Request where
  path : String
  body : String
  auth : Option String

/-- Everything the handler calls out to before the blocking `write_log`
call: `json.loads` restricted to the fields the handler reads,
`json.dumps(payload, ensure_ascii=False, indent=2)`, the handler's local
`_redact` (kept abstract — its own pattern list at line 168 does not parse,
see the section comment and claim C8), `base64.b64decode(.).decode("utf-8")`
(`none` models a raised exception), and the successive values returned by
`time.time()`. -/
structure Oracle where
  jloads : String → Option Payload
  dumps : Payload → String
  redact : String → String
  b64decode : String → Option String
  tick : Nat → ℚ

/-- Python truthiness of an optional string: `None` and `""` are falsy. -/
def truthy : Option String → Bool
  | none => false
  | some s => !(s == "")

/-- The sparse field patch passed to `Database.update_run` (db.py 199-254):
`none` fields are left untouched by the UPDATE statement.  Kept so that the
action vocabulary can express the terminal run update the handler text
intends (proxy.py lines 378-388) but never performs. -/
structure RunUpdate where
  end_time : Option ℚ
  status : Option String
  tokens_in : Option Nat
  tokens_out : Option Nat
  prompt_tokens : Option Nat
  completion_tokens : Option Nat
  total_tokens : Option Nat
  error_message : Option String
deriving DecidableEq

/-- One externally visible action of the handler, in program order: bytes
sent to the caller, Transcript Store writes, Run Ledger writes, and upstream
HTTP calls.  The vocabulary covers everything the handler text could do, so
that "the trace contains no such action" is a meaningful statement about
code that never runs. -/
inductive Action where
  | respondStatus (code : Nat)
  | respondBody (body : String)
  | transcriptWrite (runId : String) (text : String)
  | ledgerAddRun (runId provider model : String) (startTime : ℚ) (logFile : String)
  | ledgerAddEvent (runId : String) (ts : ℚ) (event : String) (details : Option String)
  | ledgerUpdateRun (runId : String) (patch : RunUpdate)
  | upstreamGetCall (url : String) (headers : List (String × String))
  | upstreamPostCall (url : String) (headers : List (String × String)) (payload : Payload)
      (stream : Bool)
deriving DecidableEq

/-- Circuit-breaker state captured by the `ProxyServer` object:
`_error_count` and `_breaker_until`, initialised to `0` and `0.0` at
construction (proxy.py lines 53-54) and written nowhere outside the
unreachable epilogue of `do_POST` (lines 402-414). -/
structure Breaker where
  error_count : Nat
  breaker_until : ℚ
deriving DecidableEq

/-- Result of one `do_POST` call: the externally visible actions performed
in order, the breaker state afterwards, and whether the handler ever
returns.  `completes = false` means the thread blocks forever inside
`write_log` and the caller never receives any reply. -/
structure PostResult where
  trace : List Action
  breaker : Breaker
  completes : Bool
deriving DecidableEq

/-- Handler `do_GET` (proxy.py lines 74-80): `/health` gets a 200 status body;
every other GET path — including `/v1/models...` — gets a 404. -/
def do_GET (path : String) : List Action :=
  if path == "/health" then
    [Action.respondStatus 200, Action.respondBody "\x7b\"status\": \"ok\"\x7d"]
  else
    [Action.respondStatus 404, Action.respondBody "\x7b\"error\": \"not found\"\x7d"]

/-- Assignment into the Python `headers` dict: replace an existing key in
place, otherwise append (Python dicts preserve insertion order). -/
def setHeader (hs : List (String × String)) (k v : String) : List (String × String) :=
  if hs.any (fun p => p.1 == k) then
    hs.map (fun p => if p.1 == k then (k, v) else p)
  else
    hs ++ [(k, v)]

/-- Outbound header construction (proxy.py lines 131-149) — a pure
computation the handler performs before the blocking `write_log` call, with
no externally visible effect of its own: start from Content-Type; if the
inbound Authorization header is truthy, pass it through; otherwise take the
configured api_key (base64-decoding it when it has the `ENC:` marker; a
decode failure makes it None), and if the result is truthy install it —
prefixed — under the configured header name (default `Authorization`). -/
def buildHeaders (b64decode : String → Option String) (pcfg : ProviderCfg)
    (inboundAuth : Option String) : List (String × String) :=
  let base := [("Content-Type", "application/json")]
  if truthy inboundAuth then
    setHeader base "Authorization" (inboundAuth.getD "")
  else
    let key0 := pcfg.api_key
    let key1 : Option String :=
      match key0 with
      | none => none
      | some k => if strStartsWith k "ENC:" then b64decode (k.drop 4) else some k
    let hdrName := match pcfg.api_key_header with
      | none => "Authorization"
      | some h => h
    let pref := match pcfg.api_key_pref with
      | none => ""
      | some p => p
    if truthy key1 then setHeader base hdrName (pref ++ key1.getD "") else base

/-- Expression `json.loads(body_bytes.decode("utf-8")) if body_bytes else \x7b\x7d`
(line 115): an empty body is replaced by the empty dictionary without any
parse attempt; otherwise the parse may fail (`none`). -/
def parsePayload (o : Oracle) (body : String) : Option Payload :=
  if body == "" then some { model := none, stream := false } else o.jloads body

/-- Assignment `payload["model"] = model` when the configured model is truthy
(lines 121-122). -/
def overrideModel (cfg : Config) (p : Payload) : Payload :=
  if truthy cfg.model then { p with model := cfg.model } else p

/-- The 503 refusal reply of the open-breaker branch (lines 92-97). -/
def breakerRefusalTrace : List Action :=
  [Action.respondStatus 503,
    Action.respondBody "\x7b\"error\": \"service temporarily unavailable\"\x7d"]

/-- The 400 reply of the JSON-parse-failure branch (lines 116-119). -/
def invalidJsonTrace : List Action :=
  [Action.respondStatus 400, Action.respondBody "\x7b\"error\": \"invalid JSON\"\x7d"]

/-- The `initial_log` text handed to `write_log` (lines 150-177): the
pretty-printed payload truncated to 2000 characters, passed through the
handler's local `_redact` — abstract here, see the section comment — and
wrapped in the request-section frame. -/
def initialLog (o : Oracle) (payload : Payload) : String :=
  "=== REQUEST ===\n" ++
    o.redact (if 2000 < (o.dumps payload).length then
      (o.dumps payload).take 2000 ++ "... [truncated]" else o.dumps payload) ++ "\n\n"

/-- Handler `do_POST` (proxy.py lines 82-414) as it executes.  `o.tick 0` is
`start_time` (line 88); `o.tick 1` is the breaker-check call to
`time.time()` (line 92): while `_breaker_until` is positive and not yet
reached, the request is refused with 503 and nothing else happens.  Then the
body is parsed (empty bytes mean an empty dictionary); a parse failure gets
a 400 with nothing recorded.  Otherwise the handler overrides the model
field, builds the outbound headers (`buildHeaders` — no visible effect),
renders, truncates and frames the request log, and calls
`log_manager.write_log(run_id, initial_log)` at line 178, which appends the
request section to the run's blob and never returns (the deadlock of
`write_log`, claim C2): the handler performs exactly that one transcript
write, leaves the breaker untouched, and blocks with no reply to the
caller. -/
def do_POST (o : Oracle) (cfg : Config) (br : Breaker) (req : Request)
    (runId : String) : PostResult :=
  if 0 < br.breaker_until ∧ o.tick 1 < br.breaker_until then
    { trace := breakerRefusalTrace, breaker := br, completes := true }
  else
    match parsePayload o req.body with
    | none => { trace := invalidJsonTrace, breaker := br, completes := true }
    | some p0 =>
      { trace := [Action.transcriptWrite runId (initialLog o (overrideModel cfg p0))],
        breaker := br, completes := false }

def isAddRun : Action → Bool
  | Action.ledgerAddRun _ _ _ _ _ => true
  | _ => false

def isUpdateRun : Action → Bool
  | Action.ledgerUpdateRun _ _ => true
  | _ => false

def isUpstreamAct : Action → Bool
  | Action.upstreamGetCall _ _ => true
  | Action.upstreamPostCall _ _ _ _ => true
  | _ => false

def isTranscriptW : Action → Bool
  | Action.transcriptWrite _ _ => true
  | _ => false

def isEventNamed (k : String) : Action → Bool
  | Action.ledgerAddEvent _ _ e _ => e == k
  | _ => false

/-- A transcript write of a response section (the `=== RESPONSE ===` frame
is produced only at proxy.py line 376, in the unreachable epilogue). -/
def isRespSection : Action → Bool
  | Action.transcriptWrite _ t => strStartsWith t "=== RESPONSE"
  | _ => false

/-- Project a trace onto the recorded ledger events: (event tag, details),
in recording order. -/
def eventsProj (tr : List Action) : List (String × Option String) :=
  tr.filterMap (fun a => match a with
    | Action.ledgerAddEvent _ _ e d => some (e, d)
    | _ => none)

/-! ### Concrete fixtures used by witnesses and counterexamples.

`oracleA.jloads` returns `none` on every body, matching `json.loads` on the
inputs actually probed (the empty string and the string "bad", neither of
which is valid JSON); `oracleB.jloads` returns a stream-requesting payload,
matching `json.loads` on the probed body `\x7b"stream": true\x7d`.  `redact`
is the identity stand-in for the handler's local `_redact`, whose own source
does not parse; no theorem depends on its behaviour. -/

def oracleA : Oracle :=
  { jloads := fun _ => none,
    dumps := fun _ => "\x7b\x7d",
    redact := fun s => s,
    b64decode := fun _ => none,
    tick := fun n => (n : ℚ) }

def oracleB : Oracle :=
  { jloads := fun _ => some { model := none, stream := true },
    dumps := fun _ => "\x7b\x7d",
    redact := fun s => s,
    b64decode := fun _ => none,
    tick := fun n => (n : ℚ) }

def cfgA : Config := { provider := none, model := none, providers := [] }

def brA : Breaker := { error_count := 0, breaker_until := 0 }

def reqChatEmpty : Request := { path := "/v1/chat/completions", body := "", auth := none }

def reqBad : Request := { path := "/v1/chat/completions", body := "bad", auth := none }

def reqStream : Request :=
  { path := "/v1/chat/completions", body := "\x7b\"stream\": true\x7d", auth := none }

/-- Unfolding of the open-breaker branch (lines 92-97). -/
theorem do_POST_refused (o : Oracle) (cfg : Config) (br : Breaker) (req : Request)
    (runId : String) (h1 : 0 < br.breaker_until) (h2 : o.tick 1 < br.breaker_until) :
    do_POST o cfg br req runId =
      { trace := breakerRefusalTrace, breaker := br, completes := true } := by
  unfold do_POST
  rw [if_pos ⟨h1, h2⟩]

/-- Unfolding of the parse-failure branch (lines 116-119). -/
theorem do_POST_invalid (o : Oracle) (cfg : Config) (br : Breaker) (req : Request)
    (runId : String)
    (hnr : ¬(0 < br.breaker_until ∧ o.tick 1 < br.breaker_until))
    (hp : parsePayload o req.body = none) :
    do_POST o cfg br req runId =
      { trace := invalidJsonTrace, breaker := br, completes := true } := by
  unfold do_POST
  rw [if_neg hnr, hp]

/-- Unfolding of the processed branch: one request-section transcript append
inside `write_log`, then the thread blocks forever (lines 121-178). -/
theorem do_POST_processed (o : Oracle) (cfg : Config) (br : Breaker) (req : Request)
    (runId : String) (p0 : Payload)
    (hnr : ¬(0 < br.breaker_until ∧ o.tick 1 < br.breaker_until))
    (hp : parsePayload o req.body = some p0) :
    do_POST o cfg br req runId =
      { trace := [Action.transcriptWrite runId (initialLog o (overrideModel cfg p0))],
        breaker := br, completes := false } := by
  unfold do_POST
  rw [if_neg hnr, hp]

/-- The request-section frame is never the response-section frame: the
mismatch sits inside the literal header, whatever the redacted body is. -/
theorem initialLog_not_resp (o : Oracle) (p : Payload) :
    strStartsWith (initialLog o p) "=== RESPONSE" = false := rfl

/-- C2: the claim says every HTTP exchange completes — in particular that
`LogManager.write_log`, which runs the compression and pruning passes while
holding the store-wide lock, terminates and returns to the request handler.
In the code `self.lock` is a non-reentrant `threading.Lock`; `write_log`
acquires it (line 108) and then calls `_prune_if_needed`, which tries to
acquire it again (line 73), so the thread blocks forever: for every store
state and every input, the embedded `write_log` deadlocks (`none`), never
returning a result.  This contradicts the claim (and the docstrings of
`write_log`), so the claim is recorded as a code bug, with this theorem
evaluating the embedded code. -/
theorem c2_write_log_deadlocks (maxB : Int) (compressDays : Option Nat)
    (gzSize : LogFile → Nat) (canCompress canDelete : LogFile → Bool) (now : ℚ)
    (lockHeld : Bool) (fs : List LogFile) (runId data : String) :
    write_log maxB compressDays gzSize canCompress canDelete now lockHeld fs runId data
      = none := by
  cases lockHeld <;> simp [write_log, acquireLock, prune_if_needed_locked]

/-- C9 counterexample: the claim says events published before a subscriber
attaches are not retained for it.  In the code there is one global queue
created at module load; `publish_event` appends to it unconditionally and
`subscribe` returns that same queue, so an event published while no
subscriber was attached is still in the queue `subscribe` hands out —
here, concretely, publishing one event into the freshly loaded module and
then subscribing yields a queue that already contains that event. -/
theorem c9_counterexample :
    ¬ (∀ (r t : String) (d : Option String) (ts : Option ℚ),
        ({ run_id := r, event := t, details := d, timestamp := ts } : BusEvent) ∉
          subscribe (publish_event initQueue r t d ts)) := by
  intro h
  exact h "r1" "request_sent" none none (by decide)

/-- C9 amended: all events are retained in the single global queue;
`subscribe` returns exactly that queue, so events published before a
subscriber attaches are retained and delivered to whichever consumer drains
the queue — there is no per-subscriber isolation and no discarding of
pre-attach events. -/
theorem c9_global_queue_retains (q : List BusEvent) (r t : String) (d : Option String)
    (ts : Option ℚ) :
    subscribe (publish_event q r t d ts) =
      q ++ [{ run_id := r, event := t, details := d, timestamp := ts }] ∧
    subscribe q = q :=
  ⟨rfl, rfl⟩

def headerValue (hs : List (String × String)) (k : String) : Option String :=
  (hs.find? (fun pr => pr.1 == k)).map (fun pr => pr.2)

/-- C10 counterexample: the claim says that when the inbound request carries
an Authorization header, exactly that value is forwarded upstream.  The code
tests `if inbound_auth:` — Python truthiness — so an Authorization header
carrying the empty string is treated as absent and the credential is
synthesized from provider configuration instead of being passed through. -/
theorem c10_counterexample :
    ¬ (∀ (dec : String → Option String) (pcfg : ProviderCfg) (a : String),
        headerValue (buildHeaders dec pcfg (some a)) "Authorization" = some a) := by
  intro h
  exact absurd
    (h (fun _ => none)
      { base_url := none, api_key := some "configkey", api_key_header := none,
        api_key_pref := none } "")
    (by decide)

theorem truthy_none : truthy none = false := rfl

theorem truthy_some (s : String) : truthy (some s) = !(s == "") := rfl

/-- C10 amended: outbound-credential construction (proxy.py lines 131-149),
a computation the handler performs before blocking forever inside
`write_log` — no request is ever actually sent upstream (final conjunct).
In the constructed header dict: a NON-EMPTY inbound Authorization value is
passed through unchanged (provider configuration is ignored); an absent —
or, by Python truthiness, empty — inbound Authorization makes the gateway
synthesize the credential from provider configuration: the api_key
(base64-decoded when `ENC:`-prefixed), installed under the configured
header name (default `Authorization`) with the configured key prefix; when
no usable key results (key absent or empty, or the `ENC:` decode fails) the
header dict carries no credential at all, and nothing is raised — not an
error at this layer. -/
theorem c10_auth_resolution :
    (∀ (dec : String → Option String) (pcfg : ProviderCfg) (a : String), a ≠ "" →
      buildHeaders dec pcfg (some a) =
        [("Content-Type", "application/json"), ("Authorization", a)]) ∧
    (∀ (dec : String → Option String) (pcfg : ProviderCfg) (auth : Option String),
      truthy auth = false → pcfg.api_key = none →
      buildHeaders dec pcfg auth = [("Content-Type", "application/json")]) ∧
    (∀ (dec : String → Option String) (pcfg : ProviderCfg) (auth : Option String),
      truthy auth = false → pcfg.api_key = some "" →
      buildHeaders dec pcfg auth = [("Content-Type", "application/json")]) ∧
    (∀ (dec : String → Option String) (pcfg : ProviderCfg) (auth : Option String) (k : String),
      truthy auth = false → pcfg.api_key = some k → strStartsWith k "ENC:" = true →
      dec (k.drop 4) = none →
      buildHeaders dec pcfg auth = [("Content-Type", "application/json")]) ∧
    (∀ (dec : String → Option String) (pcfg : ProviderCfg) (auth : Option String) (k : String),
      truthy auth = false → pcfg.api_key = some k → strStartsWith k "ENC:" = false →
      k ≠ "" → ("Content-Type" == pcfg.api_key_header.getD "Authorization") = false →
      buildHeaders dec pcfg auth =
        [("Content-Type", "application/json"),
          (pcfg.api_key_header.getD "Authorization", pcfg.api_key_pref.getD "" ++ k)]) ∧
    (∀ (dec : String → Option String) (pcfg : ProviderCfg) (auth : Option String) (k k2 : String),
      truthy auth = false → pcfg.api_key = some k → strStartsWith k "ENC:" = true →
      dec (k.drop 4) = some k2 → k2 ≠ "" →
      ("Content-Type" == pcfg.api_key_header.getD "Authorization") = false →
      buildHeaders dec pcfg auth =
        [("Content-Type", "application/json"),
          (pcfg.api_key_header.getD "Authorization", pcfg.api_key_pref.getD "" ++ k2)]) ∧
    (∀ (o : Oracle) (cfg : Config) (br : Breaker) (req : Request) (rid : String),
      (do_POST o cfg br req rid).trace.countP isUpstreamAct = 0) := by
  refine ⟨?_, ?_, ?_, ?_, ?_, ?_, ?_⟩
  · intro dec pcfg a ha
    have hb : (a == "") = false := by
      cases hx : a == ""
      · rfl
      · exact absurd (by simpa using hx) ha
    simp [buildHeaders, truthy_some, hb, setHeader]
  · rintro dec ⟨bu, ak, hdrO, prefO⟩ auth htr hak
    subst hak
    simp [buildHeaders, htr, truthy_none]
  · rintro dec ⟨bu, ak, hdrO, prefO⟩ auth htr hak
    subst hak
    simp [buildHeaders, htr, show strStartsWith "" "ENC:" = false from rfl,
      show truthy (some "") = false from rfl]
  · rintro dec ⟨bu, ak, hdrO, prefO⟩ auth k htr hak hsw hdec
    subst hak
    simp [buildHeaders, htr, hsw, hdec, truthy_none]
  · rintro dec ⟨bu, ak, hdrO, prefO⟩ auth k htr hak hsw hk hct
    subst hak
    have hb : (k == "") = false := by
      cases hx : k == ""
      · rfl
      · exact absurd (by simpa using hx) hk
    cases hdrO <;> cases prefO <;>
      simp_all [buildHeaders, truthy_some, hsw, hb, setHeader, Option.getD]
  · rintro dec ⟨bu, ak, hdrO, prefO⟩ auth k k2 htr hak hsw hdec hk2 hct
    subst hak
    have hb : (k2 == "") = false := by
      cases hx : k2 == ""
      · rfl
      · exact absurd (by simpa using hx) hk2
    cases hdrO <;> cases prefO <;>
      simp_all [buildHeaders, truthy_some, hsw, hdec, hb, setHeader, Option.getD]
  · intro o cfg br req rid
    by_cases hbr : 0 < br.breaker_until ∧ o.tick 1 < br.breaker_until
    · rw [do_POST_refused o cfg br req rid hbr.1 hbr.2]
      rfl
    · cases hp : parsePayload o req.body with
      | none =>
        rw [do_POST_invalid o cfg br req rid hbr hp]
        rfl
      | some p0 =>
        rw [do_POST_processed o cfg br req rid p0 hbr hp]
        rfl

def pcfgEncBad : ProviderCfg :=
  { base_url := none, api_key := some "ENC:%%%", api_key_header := none, api_key_pref := none }

def pcfgPlain : ProviderCfg :=
  { base_url := none, api_key := some "mykey", api_key_header := none,
    api_key_pref := some "Bearer " }

def pcfgEncGood : ProviderCfg :=
  { base_url := none, api_key := some "ENC:YWJj", api_key_header := some "X-Api-Key",
    api_key_pref := none }

def pcfgEmptyKey : ProviderCfg :=
  { base_url := none, api_key := some "", api_key_header := none, api_key_pref := none }

theorem c10_witness :
    (buildHeaders (fun _ => none) emptyProviderCfg (some "Bearer xyz") =
      [("Content-Type", "application/json"), ("Authorization", "Bearer xyz")]) ∧
    (buildHeaders (fun _ => none) emptyProviderCfg none =
      [("Content-Type", "application/json")]) ∧
    (buildHeaders (fun _ => none) pcfgEmptyKey none =
      [("Content-Type", "application/json")]) ∧
    (buildHeaders (fun _ => none) pcfgEncBad none = [("Content-Type", "application/json")]) ∧
    (buildHeaders (fun _ => none) pcfgPlain none =
      [("Content-Type", "application/json"), ("Authorization", "Bearer mykey")]) ∧
    (buildHeaders (fun s => if s == "YWJj" then some "abc" else none) pcfgEncGood none =
      [("Content-Type", "application/json"), ("X-Api-Key", "abc")]) ∧
    ((do_POST oracleA cfgA brA reqBad "r9").trace.countP isUpstreamAct = 0) := by
  refine ⟨?_, ?_, ?_, ?_, ?_, ?_, ?_⟩
  · exact c10_auth_resolution.1 (fun _ => none) emptyProviderCfg "Bearer xyz" (by decide)
  · exact c10_auth_resolution.2.1 (fun _ => none) emptyProviderCfg none rfl rfl
  · exact c10_auth_resolution.2.2.1 (fun _ => none) pcfgEmptyKey none rfl rfl
  · exact c10_auth_resolution.2.2.2.1 (fun _ => none) pcfgEncBad none "ENC:%%%" rfl rfl
      (by decide) rfl
  · exact c10_auth_resolution.2.2.2.2.1 (fun _ => none) pcfgPlain none "mykey"
      rfl rfl (by decide) (by decide) (by decide)
  · exact c10_auth_resolution.2.2.2.2.2.1 (fun s => if s == "YWJj" then some "abc" else none)
      pcfgEncGood none "ENC:YWJj" "abc" rfl rfl (by decide) (by decide) (by decide)
      (by decide)
  · exact c10_auth_resolution.2.2.2.2.2.2 oracleA cfgA brA reqBad "r9"

def reqModels : Request := { path := "/v1/models", body := "", auth := none }

/-- C5 counterexample: the claim says a GET to a path starting with
`/v1/models` is proxied upstream and relayed.  In the code `do_GET` serves
only `/health` and answers 404 to everything else; the `/v1/models` forward
lives in `do_POST`.  Concretely, `GET /v1/models` produces exactly a 404
reply and performs no upstream call, refuting the claim as stated. -/
theorem c5_counterexample :
    (do_GET "/v1/models" =
      [Action.respondStatus 404, Action.respondBody "\x7b\"error\": \"not found\"\x7d"]) ∧
    ¬ (∀ path : String, strStartsWith path "/v1/models" = true →
        (do_GET path).countP isUpstreamAct = 1) := by
  refine ⟨by decide, ?_⟩
  intro h
  exact absurd (h "/v1/models" (by decide)) (by decide)

/-- C5 amended: an inbound GET whose path starts with `/v1/models` is
answered `404 \x7b"error": "not found"\x7d` with no upstream call — `do_GET`
serves only `/health` (proxy.py lines 74-80).  The models forward is coded
in the POST branch (lines 204-216), but it is unreachable in execution: an
inbound POST to such a path that passes the breaker check and the body
parse performs exactly the request-transcript append and then blocks
forever inside `write_log` (line 178), before the upstream GET — so no
models request is ever proxied or relayed by any method (and proxy.py as
written does not parse at all, line 168). -/
theorem c5_models_not_proxied :
    (∀ path : String, strStartsWith path "/v1/models" = true →
      do_GET path =
        [Action.respondStatus 404, Action.respondBody "\x7b\"error\": \"not found\"\x7d"]) ∧
    (∀ (o : Oracle) (cfg : Config) (br : Breaker) (req : Request) (rid : String)
      (p0 : Payload),
      ¬(0 < br.breaker_until ∧ o.tick 1 < br.breaker_until) →
      parsePayload o req.body = some p0 →
      strStartsWith req.path "/v1/models" = true →
      (do_POST o cfg br req rid).completes = false ∧
      (do_POST o cfg br req rid).trace.countP isUpstreamAct = 0 ∧
      (do_POST o cfg br req rid).trace =
        [Action.transcriptWrite rid (initialLog o (overrideModel cfg p0))]) := by
  constructor
  · intro path h
    have hne : (path == "/health") = false := by
      cases hx : path == "/health"
      · rfl
      · have hp : path = "/health" := by simpa using hx
        subst hp
        exact absurd h (by decide)
    simp [do_GET, hne]
  · intro o cfg br req rid p0 hnr hp hm
    rw [do_POST_processed o cfg br req rid p0 hnr hp]
    exact ⟨rfl, rfl, rfl⟩

theorem c5_witness :
    (do_GET "/v1/models" =
      [Action.respondStatus 404, Action.respondBody "\x7b\"error\": \"not found\"\x7d"]) ∧
    ((do_POST oracleA cfgA brA reqModels "r1").completes = false ∧
      (do_POST oracleA cfgA brA reqModels "r1").trace.countP isUpstreamAct = 0 ∧
      (do_POST oracleA cfgA brA reqModels "r1").trace =
        [Action.transcriptWrite "r1"
          (initialLog oracleA (overrideModel cfgA { model := none, stream := false }))]) :=
  ⟨c5_models_not_proxied.1 "/v1/models" (by decide),
    c5_models_not_proxied.2 oracleA cfgA brA reqModels "r1"
      { model := none, stream := false } (by decide) rfl (by decide)⟩

/-- C6 counterexample: the claim says every POST whose body bytes do not
parse as JSON gets a 400 with no run, no transcript entry and no events.
The code only attempts the parse when the body is non-empty
(`json.loads(...) if body_bytes else \x7b\x7d`, line 115), so an empty
body — which is not valid JSON: `json.loads("")` raises, and
`oracleA.jloads` returns `none` on every input — is NOT answered 400: the
handler treats it as an empty object and proceeds to the `write_log` call,
which appends a request transcript entry and then blocks forever.  At this
input the gateway does not reply 400 (or at all), and a transcript entry IS
recorded, refuting the claim as stated. -/
theorem c6_counterexample :
    oracleA.jloads "" = none ∧
    (do_POST oracleA cfgA brA reqChatEmpty "r1").trace ≠ invalidJsonTrace ∧
    (do_POST oracleA cfgA brA reqChatEmpty "r1").trace.countP isTranscriptW = 1 ∧
    (do_POST oracleA cfgA brA reqChatEmpty "r1").completes = false :=
  ⟨rfl, by decide, by decide, by decide⟩

/-- C6 amended: for every POST that is not refused by the breaker guard at
line 92 (true in particular of every reachable breaker state, since the
breaker never opens — see C1) and whose body is NON-EMPTY and fails to
parse as JSON, the gateway replies `400 \x7b"error": "invalid JSON"\x7d`
and performs nothing else — no run record, no transcript entry, no events,
no upstream call — and the breaker is unchanged.  An empty body is never
parsed: it is replaced by an empty JSON object and the handler proceeds,
appending the request transcript section inside `write_log` and then
blocking forever — no 400, no run, no reply at all. -/
theorem c6_invalid_json :
    (∀ (o : Oracle) (cfg : Config) (br : Breaker) (req : Request) (rid : String),
      ¬(0 < br.breaker_until ∧ o.tick 1 < br.breaker_until) →
      (req.body == "") = false → o.jloads req.body = none →
      do_POST o cfg br req rid =
        { trace := invalidJsonTrace, breaker := br, completes := true }) ∧
    (∀ (o : Oracle) (cfg : Config) (br : Breaker) (req : Request) (rid : String),
      ¬(0 < br.breaker_until ∧ o.tick 1 < br.breaker_until) →
      req.body = "" →
      do_POST o cfg br req rid =
        { trace := [Action.transcriptWrite rid
            (initialLog o (overrideModel cfg { model := none, stream := false }))],
          breaker := br, completes := false }) := by
  constructor
  · intro o cfg br req rid hnr hne hj
    have hp : parsePayload o req.body = none := by
      simp [parsePayload, hne, hj]
    exact do_POST_invalid o cfg br req rid hnr hp
  · intro o cfg br req rid hnr hb
    have hp : parsePayload o req.body = some { model := none, stream := false } := by
      simp [parsePayload, hb]
    exact do_POST_processed o cfg br req rid { model := none, stream := false } hnr hp

theorem c6_witness :
    (do_POST oracleA cfgA brA reqBad "r1" =
      { trace := invalidJsonTrace, breaker := brA, completes := true }) ∧
    (do_POST oracleA cfgA brA reqChatEmpty "r1" =
      { trace := [Action.transcriptWrite "r1"
          (initialLog oracleA (overrideModel cfgA { model := none, stream := false }))],
        breaker := brA, completes := false }) :=
  ⟨c6_invalid_json.1 oracleA cfgA brA reqBad "r1" (by decide) (by decide) rfl,
    c6_invalid_json.2 oracleA cfgA brA reqChatEmpty "r1" (by decide) rfl⟩

theorem pruneLoop_mem (maxB : Int) (canDelete : LogFile → Bool) :
    ∀ (l : List LogFile) (total : Int) (f : LogFile),
      f ∈ pruneLoop maxB canDelete total l → f ∈ l := by
  intro l
  induction l with
  | nil => intro total f h; simp [pruneLoop] at h
  | cons g rest ih =>
    intro total f h
    by_cases hd : canDelete g = true
    · by_cases hbr : total - (g.size : Int) ≤ maxB
      · simp only [pruneLoop, hd, if_true, hbr] at h
        exact List.mem_cons_of_mem g h
      · simp only [pruneLoop, hd, if_true, hbr, if_false] at h
        exact List.mem_cons_of_mem g (ih _ f h)
    · have hd' : canDelete g = false := by revert hd; cases canDelete g <;> simp
      simp only [pruneLoop, hd', Bool.false_eq_true, if_false] at h
      rcases List.mem_cons.mp h with h | h
      · exact h ▸ List.mem_cons_self g rest
      · exact List.mem_cons_of_mem g (ih _ f h)

/-- C7: Transcript Store capacity eviction.  Conjuncts: (1) within the cap,
nothing is touched; (2) every surviving blob is one of the original blobs,
whole (the pass only ever deletes entire files); (3) the deletion order is
the `(st_mtime, path)`-ascending order of a permutation of the directory —
oldest-modified-first; (4) when over the cap, the pass examines a prefix of
that sorted order, deletes exactly its deletable members — a failed deletion
is skipped and the next-oldest tried — and stops as soon as the running
total is at or below the cap (the minimality conjunct), or after trying
every file; (5) in particular, when every deletion succeeds, the resulting
total is at or below the cap. -/
theorem c7_eviction (maxB : Int) (canDelete : LogFile → Bool) (fs : List LogFile) :
    (totalSize fs ≤ maxB → prune_if_needed maxB canDelete fs = fs) ∧
    (∀ f, f ∈ prune_if_needed maxB canDelete fs → f ∈ fs) ∧
    (List.Sorted fileOrder (sortFiles fs) ∧ (sortFiles fs).Perm fs) ∧
    (maxB < totalSize fs → ∃ k, k ≤ (sortFiles fs).length ∧
      prune_if_needed maxB canDelete fs =
        ((sortFiles fs).take k).filter (fun f => !canDelete f) ++ (sortFiles fs).drop k ∧
      (∀ j < k, maxB < totalSize fs - delSum canDelete (sortFiles fs) j) ∧
      (totalSize fs - delSum canDelete (sortFiles fs) k ≤ maxB ∨
        k = (sortFiles fs).length)) ∧
    (0 ≤ maxB → (∀ f, canDelete f = true) →
      totalSize (prune_if_needed maxB canDelete fs) ≤ maxB) := by
  refine ⟨?_, ?_, ⟨sortFiles_sorted fs, sortFiles_perm fs⟩, ?_, ?_⟩
  · intro h
    simp [prune_if_needed, h]
  · intro f hf
    by_cases h : totalSize fs ≤ maxB
    · simpa [prune_if_needed, h] using hf
    · rw [prune_if_needed, if_neg h] at hf
      exact (sortFiles_perm fs).mem_iff.mp (pruneLoop_mem maxB canDelete _ _ f hf)
  · intro h
    have h' : ¬ totalSize fs ≤ maxB := by omega
    rw [prune_if_needed, if_neg h']
    exact pruneLoop_spec maxB canDelete (sortFiles fs) (totalSize fs) h
  · intro h0 hAll
    by_cases h : totalSize fs ≤ maxB
    · rw [prune_if_needed, if_pos h]
      exact h
    · have htot : maxB < totalSize fs := by omega
      rw [prune_if_needed, if_neg h]
      obtain ⟨k, hk, heq, -, hlast⟩ :=
        pruneLoop_spec maxB canDelete (sortFiles fs) (totalSize fs) htot
      rw [heq]
      have hfilter : (((sortFiles fs).take k).filter (fun f => !canDelete f)) = [] := by
        refine List.filter_eq_nil_iff.mpr ?_
        intro a _
        simp [hAll a]
      rw [hfilter, List.nil_append]
      rcases hlast with hle | hlen
      · have hsum : delSum canDelete (sortFiles fs) k = totalSize ((sortFiles fs).take k) := by
          unfold delSum
          congr 1
          refine List.filter_eq_self.mpr ?_
          intro a _
          exact hAll a
        have hsplit := totalSize_take_drop (sortFiles fs) k
        have hts := totalSize_sortFiles fs
        omega
      · rw [hlen, List.drop_length]
        simpa [totalSize] using h0

theorem c7_witness :
    (prune_if_needed 20 (fun _ => true)
      [{ name := "a.log", mtime := 1, size := 8 }, { name := "b.log", mtime := 2, size := 8 }]
      = [{ name := "a.log", mtime := 1, size := 8 },
          { name := "b.log", mtime := 2, size := 8 }]) ∧
    (totalSize (prune_if_needed 10 (fun _ => true)
      [{ name := "b.log", mtime := 2, size := 8 },
        { name := "a.log", mtime := 1, size := 8 }]) ≤ 10) ∧
    (∃ k, k ≤ 2 ∧
      prune_if_needed 10 (fun f => f.name == "b.log")
        [{ name := "b.log", mtime := 2, size := 8 },
          { name := "a.log", mtime := 1, size := 8 }] =
        ((sortFiles [{ name := "b.log", mtime := 2, size := 8 },
          { name := "a.log", mtime := 1, size := 8 }]).take k).filter
            (fun f => !(f.name == "b.log")) ++
          (sortFiles [{ name := "b.log", mtime := 2, size := 8 },
            { name := "a.log", mtime := 1, size := 8 }]).drop k ∧
      (∀ j < k, (10 : Int) < 16 - delSum (fun f => f.name == "b.log")
        (sortFiles [{ name := "b.log", mtime := 2, size := 8 },
          { name := "a.log", mtime := 1, size := 8 }]) j) ∧
      ((16 : Int) - delSum (fun f => f.name == "b.log")
        (sortFiles [{ name := "b.log", mtime := 2, size := 8 },
          { name := "a.log", mtime := 1, size := 8 }]) k ≤ 10 ∨ k = 2)) := by
  refine ⟨?_, ?_, ?_⟩
  · exact (c7_eviction 20 (fun _ => true)
      [{ name := "a.log", mtime := 1, size := 8 },
        { name := "b.log", mtime := 2, size := 8 }]).1 (by decide)
  · exact (c7_eviction 10 (fun _ => true)
      [{ name := "b.log", mtime := 2, size := 8 },
        { name := "a.log", mtime := 1, size := 8 }]).2.2.2.2 (by decide) (fun _ => rfl)
  · exact (c7_eviction 10 (fun f => f.name == "b.log")
      [{ name := "b.log", mtime := 2, size := 8 },
        { name := "a.log", mtime := 1, size := 8 }]).2.2.2.1 (by decide)

/-- C1: circuit breaker.  The claim states the breaker protocol the code
text carries (the check at proxy.py lines 92-97 and the counter update at
lines 402-414, matching the comments at lines 48-54 and the epilogue's own
comments): errors counted, the 5th consecutive error opening a 30-second
cooldown, refusal with 503 while open, normal forwarding afterwards, a
success resetting the counter.  None of this is ever exhibited: proxy.py as
written does not parse (line 168 is a SyntaxError), and even under the
evident quoting repair every request that passes the breaker check and the
body parse blocks forever inside `write_log` (line 178), before the
upstream call and before the classification and counter code.  Conjuncts:
(1) no request ever changes the breaker state; (2) from the initial breaker
state (`_error_count = 0`, `_breaker_until = 0.0`, lines 53-54 — `brA`) no
request is ever refused, since the refusal branch requires
`_breaker_until > 0`, which is never established; (3) a request that passes
the breaker check and the parse never completes and performs no upstream
call, so it is never classified as error or success.  Recorded as a code
bug. -/
theorem c1_breaker_never_engages :
    (∀ (o : Oracle) (cfg : Config) (br : Breaker) (req : Request) (rid : String),
      (do_POST o cfg br req rid).breaker = br) ∧
    (∀ (o : Oracle) (cfg : Config) (req : Request) (rid : String),
      (do_POST o cfg brA req rid).trace ≠ breakerRefusalTrace) ∧
    (∀ (o : Oracle) (cfg : Config) (br : Breaker) (req : Request) (rid : String)
      (p0 : Payload),
      ¬(0 < br.breaker_until ∧ o.tick 1 < br.breaker_until) →
      parsePayload o req.body = some p0 →
      (do_POST o cfg br req rid).completes = false ∧
      (do_POST o cfg br req rid).trace.countP isUpstreamAct = 0) := by
  refine ⟨?_, ?_, ?_⟩
  · intro o cfg br req rid
    by_cases hbr : 0 < br.breaker_until ∧ o.tick 1 < br.breaker_until
    · rw [do_POST_refused o cfg br req rid hbr.1 hbr.2]
    · cases hp : parsePayload o req.body with
      | none => rw [do_POST_invalid o cfg br req rid hbr hp]
      | some p0 => rw [do_POST_processed o cfg br req rid p0 hbr hp]
  · intro o cfg req rid
    have hnr : ¬(0 < brA.breaker_until ∧ o.tick 1 < brA.breaker_until) := by
      intro h
      exact absurd h.1 (lt_irrefl 0)
    cases hp : parsePayload o req.body with
    | none =>
      rw [do_POST_invalid o cfg brA req rid hnr hp]
      decide
    | some p0 =>
      rw [do_POST_processed o cfg brA req rid p0 hnr hp]
      simp [breakerRefusalTrace]
  · intro o cfg br req rid p0 hnr hp
    rw [do_POST_processed o cfg br req rid p0 hnr hp]
    exact ⟨rfl, rfl⟩

theorem c1_witness :
    ((do_POST oracleA cfgA brA reqChatEmpty "r1").breaker = brA) ∧
    ((do_POST oracleA cfgA brA reqChatEmpty "r1").trace ≠ breakerRefusalTrace) ∧
    ((do_POST oracleA cfgA brA reqChatEmpty "r1").completes = false ∧
      (do_POST oracleA cfgA brA reqChatEmpty "r1").trace.countP isUpstreamAct = 0) :=
  ⟨c1_breaker_never_engages.1 oracleA cfgA brA reqChatEmpty "r1",
    c1_breaker_never_engages.2.1 oracleA cfgA reqChatEmpty "r1",
    c1_breaker_never_engages.2.2 oracleA cfgA brA reqChatEmpty "r1"
      { model := none, stream := false } (by decide) rfl⟩

/-- C3: terminal run bookkeeping.  The claim (and the code text at
proxy.py lines 179 and 377-393) has a run record inserted before
forwarding, exactly one terminal update with status `error` iff an
exception occurred or the upstream status is at least 500, and a
`request_finished` event carrying the final status.  In execution no run is
ever created or updated: `db.add_run` at line 179 sits immediately after
the `write_log` call at line 178, inside which the thread blocks forever
(and proxy.py does not parse at all, line 168).  Conjuncts: (1) for every
request, the trace contains no run insert, no run update and no
`request_finished` event; (2) a request that passes the breaker check and
the parse never completes.  Recorded as a code bug. -/
theorem c3_no_run_bookkeeping :
    (∀ (o : Oracle) (cfg : Config) (br : Breaker) (req : Request) (rid : String),
      (do_POST o cfg br req rid).trace.countP isAddRun = 0 ∧
      (do_POST o cfg br req rid).trace.countP isUpdateRun = 0 ∧
      (do_POST o cfg br req rid).trace.countP (isEventNamed "request_finished") = 0) ∧
    (∀ (o : Oracle) (cfg : Config) (br : Breaker) (req : Request) (rid : String)
      (p0 : Payload),
      ¬(0 < br.breaker_until ∧ o.tick 1 < br.breaker_until) →
      parsePayload o req.body = some p0 →
      (do_POST o cfg br req rid).completes = false) := by
  constructor
  · intro o cfg br req rid
    by_cases hbr : 0 < br.breaker_until ∧ o.tick 1 < br.breaker_until
    · rw [do_POST_refused o cfg br req rid hbr.1 hbr.2]
      exact ⟨rfl, rfl, rfl⟩
    · cases hp : parsePayload o req.body with
      | none =>
        rw [do_POST_invalid o cfg br req rid hbr hp]
        exact ⟨rfl, rfl, rfl⟩
      | some p0 =>
        rw [do_POST_processed o cfg br req rid p0 hbr hp]
        exact ⟨rfl, rfl, rfl⟩
  · intro o cfg br req rid p0 hnr hp
    exact congrArg PostResult.completes (do_POST_processed o cfg br req rid p0 hnr hp)

theorem c3_witness :
    ((do_POST oracleA cfgA brA reqChatEmpty "r1").trace.countP isAddRun = 0 ∧
      (do_POST oracleA cfgA brA reqChatEmpty "r1").trace.countP isUpdateRun = 0 ∧
      (do_POST oracleA cfgA brA reqChatEmpty "r1").trace.countP
        (isEventNamed "request_finished") = 0) ∧
    ((do_POST oracleA cfgA brA reqChatEmpty "r1").completes = false) :=
  ⟨c3_no_run_bookkeeping.1 oracleA cfgA brA reqChatEmpty "r1",
    c3_no_run_bookkeeping.2 oracleA cfgA brA reqChatEmpty "r1"
      { model := none, stream := false } (by decide) rfl⟩

/-- C4: streamed-run events.  The claim has every streamed request record
one `first_token`, one `token_chunk` per non-empty chunk (details truncated
to 100 characters) and one `stream_finished`, with `first_token` first.  In
execution no streamed request records ANY event: the handler blocks forever
inside `write_log` (proxy.py line 178) before the upstream call, so the
recording code at lines 256-296 never runs (and proxy.py does not parse at
all, line 168; moreover that code's own text records the first
`token_chunk` at line 272 before the `first_token` at line 281, against the
claimed order even as intended).  Theorem: a request that passes the
breaker check and whose body parses to a stream-requesting payload never
completes, records an empty event list — in particular zero `first_token`,
`token_chunk` and `stream_finished` events — and performs no upstream call.
Recorded as a code bug. -/
theorem c4_no_stream_events (o : Oracle) (cfg : Config) (br : Breaker) (req : Request)
    (rid : String) (p0 : Payload)
    (hnr : ¬(0 < br.breaker_until ∧ o.tick 1 < br.breaker_until))
    (hp : parsePayload o req.body = some p0)
    (hstream : p0.stream = true) :
    (do_POST o cfg br req rid).completes = false ∧
    eventsProj (do_POST o cfg br req rid).trace = [] ∧
    (do_POST o cfg br req rid).trace.countP (isEventNamed "first_token") = 0 ∧
    (do_POST o cfg br req rid).trace.countP (isEventNamed "token_chunk") = 0 ∧
    (do_POST o cfg br req rid).trace.countP (isEventNamed "stream_finished") = 0 ∧
    (do_POST o cfg br req rid).trace.countP isUpstreamAct = 0 := by
  rw [do_POST_processed o cfg br req rid p0 hnr hp]
  exact ⟨rfl, rfl, rfl, rfl, rfl, rfl⟩

theorem c4_witness :
    (do_POST oracleB cfgA brA reqStream "r1").completes = false ∧
    eventsProj (do_POST oracleB cfgA brA reqStream "r1").trace = [] ∧
    (do_POST oracleB cfgA brA reqStream "r1").trace.countP
      (isEventNamed "first_token") = 0 ∧
    (do_POST oracleB cfgA brA reqStream "r1").trace.countP
      (isEventNamed "token_chunk") = 0 ∧
    (do_POST oracleB cfgA brA reqStream "r1").trace.countP
      (isEventNamed "stream_finished") = 0 ∧
    (do_POST oracleB cfgA brA reqStream "r1").trace.countP isUpstreamAct = 0 :=
  c4_no_stream_events oracleB cfgA brA reqStream "r1" { model := none, stream := true }
    (by decide) rfl rfl

/-- C8: redaction before persistence.  The claim says persisted transcript
text passes through the redaction function — both the request section and
the response section — and thereafter contains no bearer-token or
sk-prefixed-key substring.  The code cannot exhibit this: the pattern list
of the local `_redact` (proxy.py line 168, and its copy at line 366) is not
well-formed Python — a compile-time `SyntaxError` that makes the whole
module unimportable, which the per-pattern `try/except` around the run-time
`re.sub` calls cannot skip — so no redaction function exists as written and
the server never starts; the evident repair of the quoting would moreover
apply a third pattern beyond the two the claim names.  This theorem settles
what the handler, read under the minimal quoting repair with `_redact` kept
abstract, persists: a response section is NEVER written (the handler blocks
inside `write_log` long before the response write at line 376), and at most
one transcript write — the request section — ever happens.  Recorded as a
code bug. -/
theorem c8_no_redacted_persistence :
    ∀ (o : Oracle) (cfg : Config) (br : Breaker) (req : Request) (rid : String),
      (do_POST o cfg br req rid).trace.countP isRespSection = 0 ∧
      (do_POST o cfg br req rid).trace.countP isTranscriptW ≤ 1 := by
  intro o cfg br req rid
  by_cases hbr : 0 < br.breaker_until ∧ o.tick 1 < br.breaker_until
  · rw [do_POST_refused o cfg br req rid hbr.1 hbr.2]
    exact ⟨rfl, Nat.zero_le 1⟩
  · cases hp : parsePayload o req.body with
    | none =>
      rw [do_POST_invalid o cfg br req rid hbr hp]
      exact ⟨rfl, Nat.zero_le 1⟩
    | some p0 =>
      rw [do_POST_processed o cfg br req rid p0 hbr hp]
      exact ⟨rfl, Nat.le_refl 1⟩

end PaneldeControl
